import Mathlib

/-!
Verification development for the ExclusionApp matching and reference-cache
subsystem.  The Lean definitions below are a shallow embedding of the Python
source files `engine/normalizer.py`, `engine/matcher_people.py`,
`engine/matcher_entity.py`, `engine/reference_cache.py` and the vendor
dispatch section of `engine/runner.py`.  Python strings are modelled as Lean
`String`; absent optional values (Python `None`) and SQL `NULL` are modelled
as the empty string, which is observationally equivalent here because every
use in the source guards these values with Python truthiness.  The rapidfuzz
similarity score is modelled as a rational-valued parameter `sim`, with a
concrete longest-common-subsequence based instance `fuzzScore` mirroring
rapidfuzz's indel ratio for concrete evaluations.
-/

namespace ExclusionApp

/-! ### Character-level helpers modelling Python string primitives -/

/-- Model of Python `str.upper()` (ASCII case mapping). -/
def upperStr (s : String) : String :=
  String.mk (s.data.map Char.toUpper)

/-- Drop leading and trailing whitespace, modelling Python `str.strip()`. -/
def trimChars (cs : List Char) : List Char :=
  ((cs.dropWhile Char.isWhitespace).reverse.dropWhile Char.isWhitespace).reverse

/-- Model of Python `str.strip()`. -/
def trimStr (s : String) : String :=
  String.mk (trimChars s.data)

/-- Split a character list at every occurrence of the separator. -/
def splitOnSep (sep : Char) : List Char → List (List Char)
  | [] => [[]]
  | c :: cs =>
    if c = sep then [] :: splitOnSep sep cs
    else
      match splitOnSep sep cs with
      | [] => [[c]]
      | p :: ps => (c :: p) :: ps

/-- Collapse whitespace runs to a single space (model of `re.sub(r"\s+", " ", -)`);
the flag records whether the previous character was whitespace. -/
def collapseWs : Bool → List Char → List Char
  | _, [] => []
  | prevWs, c :: cs =>
    if c.isWhitespace then
      (if prevWs then [] else [' ']) ++ collapseWs true cs
    else c :: collapseWs false cs

/-- Tokens of a string, modelling Python `str.split()` with no argument:
split on whitespace runs, discarding empty pieces. -/
def splitTokens (s : String) : List String :=
  ((splitOnSep ' ' (collapseWs true (trimChars s.data))).filter (· ≠ [])).map String.mk

/-- Join a token list with single spaces, modelling `" ".join(tokens)`. -/
def joinSpace : List String → String
  | [] => ""
  | [t] => t
  | t :: ts => t ++ " " ++ joinSpace ts

/-- Numeric value of a digit list (the list is assumed checked by the caller). -/
def digitsVal (cs : List Char) : Nat :=
  cs.foldl (fun n c => 10 * n + (c.toNat - '0'.toNat)) 0

/-! ### engine/normalizer.py -/

/-- Embedding of `normalize_whitespace(value)`: collapse runs of whitespace to one space and
trim the ends. -/
def normalize_whitespace (value : String) : String :=
  String.mk (collapseWs true (trimChars value.data))

/-- Python word characters as matched by `\w` (ASCII fragment). -/
def isWordChar (c : Char) : Bool :=
  c.isAlphanum || c = '_'

/-- Embedding of `normalize_name(value)`: uppercase, strip characters outside `\w` and
whitespace, collapse whitespace.  Falsy input degrades to the empty string. -/
def normalize_name (value : String) : String :=
  if value = "" then ""
  else
    normalize_whitespace
      (String.mk ((value.data.map Char.toUpper).filter
        (fun c => isWordChar c || c.isWhitespace)))

def PERSON_SUFFIXES : List String := ["JR", "SR", "III", "IV", "II"]

def BUSINESS_SUFFIXES : List String :=
  ["LLC", "L.L.C.", "INC", "INC.", "CORP", "CORPORATION",
   "CO", "COMPANY", "LTD", "LIMITED", "PLLC", "PC",
   "LP", "LLP", "ASSOCIATES", "GROUP", "SERVICES"]

/-- Embedding of `remove_person_suffixes(name)`: drop standalone generational suffix tokens. -/
def remove_person_suffixes (name : String) : String :=
  joinSpace ((splitTokens name).filter (fun t => ¬ PERSON_SUFFIXES.contains t))

/-- Embedding of `normalize_person_name(first, last, middle)`: normalize the parts, strip
person suffixes from first and last, and join the full name.  The absent
`middle` argument is modelled as the empty string. -/
def normalize_person_name (first last middle : String) :
    String × String × String × String :=
  let first := normalize_name first
  let last := normalize_name last
  let middle := if middle = "" then "" else normalize_name middle
  let first := remove_person_suffixes first
  let last := remove_person_suffixes last
  let full := normalize_whitespace (first ++ " " ++ middle ++ " " ++ last)
  (first, last, middle, full)

/-- Embedding of `normalize_entity_name(name)`: normalize and drop business suffix tokens. -/
def normalize_entity_name (name : String) : String :=
  if name = "" then ""
  else
    joinSpace ((splitTokens (normalize_name name)).filter
      (fun t => ¬ BUSINESS_SUFFIXES.contains t))

/-- Embedding of `normalize_zip(zip_code)`: strip non-digit characters, keep the first five
remaining digits. -/
def normalize_zip (zip_code : String) : String :=
  if zip_code = "" then ""
  else String.mk ((zip_code.data.filter Char.isDigit).take 5)

/-! ### Date parsing, modelling `datetime.strptime` on the two formats used -/

structure Date where
  year : Nat
  month : Nat
  day : Nat
deriving DecidableEq, Repr

def isLeapYear (y : Nat) : Bool :=
  y % 4 = 0 && (y % 100 ≠ 0 || y % 400 = 0)

def daysInMonth (y m : Nat) : Nat :=
  if m = 2 then (if isLeapYear y then 29 else 28)
  else if m = 4 || m = 6 || m = 9 || m = 11 then 30
  else 31

/-- Month field of `strptime` (`%m`): one or two digits, value 1..12. -/
def monthField (cs : List Char) : Option Nat :=
  if cs ≠ [] ∧ cs.length ≤ 2 ∧ cs.all Char.isDigit ∧
      1 ≤ digitsVal cs ∧ digitsVal cs ≤ 12 then
    some (digitsVal cs)
  else none

/-- Day field of `strptime` (`%d`): one or two digits, value 1..31. -/
def dayField (cs : List Char) : Option Nat :=
  if cs ≠ [] ∧ cs.length ≤ 2 ∧ cs.all Char.isDigit ∧
      1 ≤ digitsVal cs ∧ digitsVal cs ≤ 31 then
    some (digitsVal cs)
  else none

/-- Year field of `strptime` (`%Y`): exactly four digits. -/
def yearField (cs : List Char) : Option Nat :=
  if cs.length = 4 ∧ cs.all Char.isDigit then some (digitsVal cs) else none

/-- Construction of a `datetime.date`: the year must be at least `MINYEAR = 1`
and the day must fit the month; otherwise `ValueError`, modelled as `none`. -/
def mkValidDate (y m d : Nat) : Option Date :=
  if 1 ≤ y ∧ d ≤ daysInMonth y m then some ⟨y, m, d⟩ else none

/-- Model of `datetime.strptime(s, "%m/%d/%Y")`, as an option-valued parser. -/
def strptime_mdy (s : String) : Option Date :=
  match splitOnSep '/' s.data with
  | [ms, ds, ys] =>
    match monthField ms, dayField ds, yearField ys with
    | some m, some d, some y => mkValidDate y m d
    | _, _, _ => none
  | _ => none

/-- Model of `datetime.strptime(s, "%Y-%m-%d")`, as an option-valued parser. -/
def strptime_ymd (s : String) : Option Date :=
  match splitOnSep '-' s.data with
  | [ys, ms, ds] =>
    match yearField ys, monthField ms, dayField ds with
    | some y, some m, some d => mkValidDate y m d
    | _, _, _ => none
  | _ => none

/-- The two-format parse attempted by `normalize_dob`: `MM/DD/YYYY` first,
then `YYYY-MM-DD`. -/
def parse_dob (s : String) : Option Date :=
  match strptime_mdy s with
  | some d => some d
  | none => strptime_ymd s

/-- Two-digit zero-padded rendering (`%m`, `%d` of `strftime`). -/
def fmt2 (n : Nat) : String :=
  if n < 10 then "0" ++ toString n else toString n

/-- Model of `strftime("%Y-%m-%d")` on a parsed date. -/
def fmt_iso (d : Date) : String :=
  toString d.year ++ "-" ++ fmt2 d.month ++ "-" ++ fmt2 d.day

/-- Model of `strftime("%Y%m%d")` on a parsed date. -/
def fmt_compact (d : Date) : String :=
  toString d.year ++ fmt2 d.month ++ fmt2 d.day

/-- Embedding of `normalize_dob(dob_value)`: try the two formats on the stripped input and
return the iso and compact renderings, or `(None, None)` on any failure. -/
def normalize_dob (dob_value : String) : Option String × Option String :=
  if dob_value = "" then (none, none)
  else
    match parse_dob (trimStr dob_value) with
    | some d => (some (fmt_iso d), some (fmt_compact d))
    | none => (none, none)

/-! ### Reference snapshot data model (schema from `reference_cache.create_tables`)

SQLite `TEXT` columns are modelled as `String`; a `NULL` cell is modelled as
the empty string, which every use in the matchers treats identically
(Python truthiness and equality against a non-empty query string). -/

structure OigPersonRow where
  first : String
  last : String
  dob : String
  dob_compact : String
  exclusion_date : String
deriving DecidableEq, Repr

structure SamPersonRow where
  first : String
  last : String
  exclusion_date : String
  city : String
  state : String
  zip : String
deriving DecidableEq, Repr

structure OigEntityRow where
  name : String
  exclusion_date : String
deriving DecidableEq, Repr

structure SamEntityRow where
  name : String
  exclusion_date : String
  city : String
  state : String
  zip : String
deriving DecidableEq, Repr

/-- One month's reference snapshot: the four relations of the cache database. -/
structure Snapshot where
  oig_people : List OigPersonRow
  sam_people : List SamPersonRow
  oig_entities : List OigEntityRow
  sam_entities : List SamEntityRow
deriving DecidableEq, Repr

/-! ### Match results and the shared review helper

`matcher_people._set_review` and `matcher_entity._set_review` are identical
function definitions in the source; `set_review` embeds both. -/

structure MatchResult where
  oig_status : String
  oig_date : String
  sam_status : String
  sam_date : String
  reason : String
  review_required : Bool
  review_source : String
  review_candidate_name : String
  review_candidate_exclusion_date : String
  review_note : String
  review_needed_data : String
deriving DecidableEq, Repr

/-- The result dictionary both matchers start from. -/
def initResult : MatchResult :=
  { oig_status := "NOT FOUND"
    oig_date := ""
    sam_status := "NOT FOUND"
    sam_date := ""
    reason := ""
    review_required := false
    review_source := ""
    review_candidate_name := ""
    review_candidate_exclusion_date := ""
    review_note := ""
    review_needed_data := "" }

/-- Embedding of `_set_review(result, ...)`: attach a review item unless one is already
present.  (`exclusion_date or ""` is the identity on the string model.) -/
def set_review (r : MatchResult)
    (source candidate_name exclusion_date note needed_data : String) :
    MatchResult :=
  if r.review_required then r
  else
    { r with
      review_required := true
      review_source := source
      review_candidate_name := candidate_name
      review_candidate_exclusion_date := exclusion_date
      review_note := note
      review_needed_data := needed_data }

/-- The six review fields of a result, bundled for preservation statements. -/
def reviewFields (r : MatchResult) :
    Bool × String × String × String × String × String :=
  (r.review_required, r.review_source, r.review_candidate_name,
   r.review_candidate_exclusion_date, r.review_note, r.review_needed_data)

/-! ### engine/matcher_people.py -/

/-- The OIG pass of `match_person`: the loop over `oig_people` rows sharing
the query's last name.  `sim` models `rapidfuzz.fuzz.ratio`; the thresholds
are `FUZZ_STRONG = 95` and `FUZZ_POSSIBLE = 90`. -/
def oigPeopleLoop (sim : String → String → ℚ) (first dob_compact : String) :
    List OigPersonRow → MatchResult → MatchResult
  | [], r => r
  | row :: rest, r =>
    let score := sim first row.first
    if first = row.first ∧ dob_compact ≠ "" ∧ dob_compact = row.dob_compact then
      { r with
        oig_status := "CONFIRMED"
        oig_date := row.exclusion_date
        reason := "Exact first+last+DOB" }
    else if score ≥ 95 ∧ dob_compact ≠ "" ∧ dob_compact = row.dob_compact then
      { r with
        oig_status := "CONFIRMED"
        oig_date := row.exclusion_date
        reason := "Fuzzy first (" ++ toString score ++ ") + DOB" }
    else if score ≥ 90 then
      let candidate_name := trimStr (row.first ++ " " ++ row.last)
      let r' :=
        if dob_compact = "" then
          set_review r "OIG People" candidate_name row.exclusion_date
            ("High-similarity OIG name match (score=" ++ toString score ++
              ") but DOB missing in source record.")
            "DOB"
        else if row.dob_compact ≠ "" ∧ dob_compact ≠ row.dob_compact then
          set_review r "OIG People" candidate_name row.exclusion_date
            ("High-similarity OIG name match (score=" ++ toString score ++
              ") but DOB does not match reference.")
            "Confirm DOB / SSN last4"
        else r
      oigPeopleLoop sim first dob_compact rest r'
    else oigPeopleLoop sim first dob_compact rest r

/-- The strong-corroboration condition of the SAM person pass for one row. -/
def samPersonConfirm (first city state zip_code : String)
    (row : SamPersonRow) : Prop :=
  first = row.first ∧
    (zip_code ≠ "" ∧ row.zip ≠ "" ∧ zip_code = row.zip) ∧
    ((city = "" ∧ state = "") ∨
      ((city ≠ "" ∧ row.city ≠ "" ∧ upperStr city = row.city) ∧
        (state ≠ "" ∧ row.state ≠ "" ∧ upperStr state = row.state)))

instance (first city state zip_code : String) (row : SamPersonRow) :
    Decidable (samPersonConfirm first city state zip_code row) := by
  unfold samPersonConfirm
  infer_instance

/-- The SAM pass of `match_person` (strict policy): the loop over
`sam_people` rows sharing the query's last name. -/
def samPeopleLoop (first city state zip_code : String) :
    List SamPersonRow → MatchResult → MatchResult
  | [], r => r
  | row :: rest, r =>
    if samPersonConfirm first city state zip_code row then
      { r with sam_status := "CONFIRMED", sam_date := row.exclusion_date }
    else samPeopleLoop first city state zip_code rest r

/-- Embedding of `match_person(conn, first, last, dob_compact, city, state, zip_code)`.
The SQL `WHERE last = ?` filters are made explicit. -/
def match_person (sim : String → String → ℚ) (snap : Snapshot)
    (first last dob_compact city state zip_code : String) : MatchResult :=
  let r := oigPeopleLoop sim first dob_compact
    (snap.oig_people.filter (fun row => row.last = last)) initResult
  samPeopleLoop first city state zip_code
    (snap.sam_people.filter (fun row => row.last = last)) r

/-! ### engine/matcher_entity.py -/

/-- The fuzzy OIG entity scan: first row with score at or above
`FUZZ_STRONG = 95` attaches a review item and stops. -/
def oigEntityLoop (sim : String → String → ℚ) (entity_name : String) :
    List OigEntityRow → MatchResult → MatchResult
  | [], r => r
  | row :: rest, r =>
    let score := sim entity_name row.name
    if score ≥ 95 then
      set_review r "OIG Entities" row.name row.exclusion_date
        ("High-similarity OIG entity name match (score=" ++ toString score ++ ").")
        "Tax ID / address corroboration"
    else oigEntityLoop sim entity_name rest r

/-- The fuzzy SAM entity scan: a row at or above the threshold attaches a
review item and stops only when the state or the zip corroborates. -/
def samEntityLoop (sim : String → String → ℚ) (entity_name state zip_code : String) :
    List SamEntityRow → MatchResult → MatchResult
  | [], r => r
  | row :: rest, r =>
    let score := sim entity_name row.name
    if score ≥ 95 then
      if state ≠ "" ∧ row.state ≠ "" ∧ upperStr state = row.state then
        set_review r "SAM Entities" row.name row.exclusion_date
          ("High-similarity SAM entity match (score=" ++ toString score ++
            ") with state corroboration.")
          "Tax ID / exact legal name confirmation"
      else if zip_code ≠ "" ∧ row.zip ≠ "" ∧ zip_code = row.zip then
        set_review r "SAM Entities" row.name row.exclusion_date
          ("High-similarity SAM entity match (score=" ++ toString score ++
            ") with zip corroboration.")
          "Tax ID / exact legal name confirmation"
      else samEntityLoop sim entity_name state zip_code rest r
    else samEntityLoop sim entity_name state zip_code rest r

/-- Embedding of `match_entity(conn, entity_name, city, state, zip_code)`.  The exact
lookups (`WHERE name = ?` with `fetchone`) are modelled with `List.find?`. -/
def match_entity (sim : String → String → ℚ) (snap : Snapshot)
    (entity_name state zip_code : String) : MatchResult :=
  let r := initResult
  let r :=
    match snap.oig_entities.find? (fun row => row.name = entity_name) with
    | some row =>
      { r with
        oig_status := "CONFIRMED"
        oig_date := row.exclusion_date
        reason := "Exact entity name match (OIG)" }
    | none => oigEntityLoop sim entity_name snap.oig_entities r
  match snap.sam_entities.find? (fun row => row.name = entity_name) with
  | some row => { r with sam_status := "CONFIRMED", sam_date := row.exclusion_date }
  | none => samEntityLoop sim entity_name state zip_code snap.sam_entities r

/-! ### engine/reference_cache.py

The cache directory is modelled as a map from file path to the snapshot
stored at that path (`none` when no file exists).  CSV extracts are modelled
as lists of rows with the column names the loader reads; pandas `fillna("")`
makes every absent cell the empty string. -/

/-- One row of the Source-A (OIG) extract, post `fillna("")`. -/
structure OigCsvRow where
  FIRSTNAME : String
  LASTNAME : String
  BUSNAME : String
  DOB : String
  EXCLDATE : String
deriving DecidableEq, Repr

/-- One row of the Source-B (SAM) extract, post `fillna("")`.
`exclusionDate` models the "Exclusion Date" column. -/
structure SamCsvRow where
  First : String
  Last : String
  Name : String
  City : String
  State : String
  Zip : String
  exclusionDate : String
deriving DecidableEq, Repr

/-- Embedding of `load_oig`: person rows for rows with both names, entity rows for rows
with a business name (one source row may yield both). -/
def load_oig_people : List OigCsvRow → List OigPersonRow
  | [] => []
  | row :: rest =>
    if row.FIRSTNAME ≠ "" ∧ row.LASTNAME ≠ "" then
      let p := normalize_person_name row.FIRSTNAME row.LASTNAME ""
      let dobs := normalize_dob row.DOB
      ⟨p.1, p.2.1, (dobs.1).getD "", (dobs.2).getD "", row.EXCLDATE⟩ ::
        load_oig_people rest
    else load_oig_people rest

def load_oig_entities : List OigCsvRow → List OigEntityRow
  | [] => []
  | row :: rest =>
    if row.BUSNAME ≠ "" then
      ⟨normalize_entity_name row.BUSNAME, row.EXCLDATE⟩ :: load_oig_entities rest
    else load_oig_entities rest

/-- Embedding of `load_sam` person rows (chunked reading is order-preserving, so the
chunking is not modelled). -/
def load_sam_people : List SamCsvRow → List SamPersonRow
  | [] => []
  | row :: rest =>
    if row.First ≠ "" ∧ row.Last ≠ "" then
      let p := normalize_person_name row.First row.Last ""
      ⟨p.1, p.2.1, row.exclusionDate, upperStr row.City, upperStr row.State,
        normalize_zip row.Zip⟩ :: load_sam_people rest
    else load_sam_people rest

def load_sam_entities : List SamCsvRow → List SamEntityRow
  | [] => []
  | row :: rest =>
    if row.Name ≠ "" then
      ⟨normalize_entity_name row.Name, row.exclusionDate, upperStr row.City,
        upperStr row.State, normalize_zip row.Zip⟩ :: load_sam_entities rest
    else load_sam_entities rest

/-- The snapshot written by a successful build. -/
def mkSnapshot (oig_rows : List OigCsvRow) (sam_rows : List SamCsvRow) :
    Snapshot :=
  ⟨load_oig_people oig_rows, load_sam_people sam_rows,
   load_oig_entities oig_rows, load_sam_entities sam_rows⟩

/-- A raised Python exception: its class name and message. -/
structure PyError where
  cls : String
  msg : String
deriving DecidableEq, Repr

/-- The cache directory: contents of the snapshot file at each path. -/
def CacheStore : Type := String → Option Snapshot

/-- Embedding of `get_cache_path(month)`: the snapshot file name for a month
(relative to the fixed cache directory). -/
def get_cache_path (month : String) : String :=
  "reference_" ++ month ++ ".sqlite"

/-- Embedding of `cache_exists(month)`. -/
def cache_exists (store : CacheStore) (month : String) : Bool :=
  (store (get_cache_path month)).isSome

/-- Embedding of `build_reference_cache(month, oig_path, sam_path)`: raise before touching
the file when a snapshot for the month exists (the source checks
`db_path.exists()` before `sqlite3.connect`, which would create the file);
otherwise write the loaded snapshot at the month's path.  The returned store
is the cache directory after the call. -/
def build_reference_cache (store : CacheStore) (month : String)
    (oig_rows : List OigCsvRow) (sam_rows : List SamCsvRow) :
    CacheStore × Except PyError Unit :=
  let db_path := get_cache_path month
  if (store db_path).isSome then
    (store, Except.error ⟨"Exception", "Cache for " ++ month ++ " already exists."⟩)
  else
    (fun p => if p = db_path then some (mkSnapshot oig_rows sam_rows) else store p,
     Except.ok ())

/-! ### engine/runner.py, vendor dispatch (run_exclusion_check, vendor loop)

The per-row column plumbing is external I/O; the embedded function starts
from the values the runner has in scope at the dispatch: the classification,
the raw vendor name, and the already-derived state and zip strings. -/

/-- The matching dispatch for one vendor row. -/
def dispatch_match (sim : String → String → ℚ) (snap : Snapshot)
    (classification name_raw state zip_code : String) : MatchResult :=
  let normalized_entity := normalize_entity_name name_raw
  if classification = "ENTITY" then
    match_entity sim snap normalized_entity state zip_code
  else if classification = "PERSON_VENDOR" then
    let tokens := splitTokens name_raw
    let first := tokens.headD ""
    let last := if tokens.length > 1 then tokens.getLastD "" else ""
    let p := normalize_person_name first last ""
    match_person sim snap p.1 p.2.1 "" "" "" zip_code
  else
    let entity_result := match_entity sim snap normalized_entity state zip_code
    let tokens := splitTokens name_raw
    let first := tokens.headD ""
    let last := if tokens.length > 1 then tokens.getLastD "" else ""
    let p := normalize_person_name first last ""
    let person_result := match_person sim snap p.1 p.2.1 "" "" "" zip_code
    if person_result.oig_status = "CONFIRMED" ∨
        person_result.sam_status = "CONFIRMED" then
      person_result
    else entity_result

/-! ### A concrete similarity instance modelling rapidfuzz `fuzz.ratio`

`fuzz.ratio` is the normalized indel similarity
`100 * (1 - dist / (len1 + len2))` with `dist = len1 + len2 - 2 * lcs`,
i.e. `200 * lcs / (len1 + len2)`, and `100` for two empty strings.  The
longest-common-subsequence length is computed with a structural fuel
argument so that concrete instances reduce in the kernel. -/

def lcsLenF : Nat → List Char → List Char → Nat
  | 0, _, _ => 0
  | _ + 1, [], _ => 0
  | _ + 1, _ :: _, [] => 0
  | f + 1, a :: as, b :: bs =>
    if a = b then lcsLenF f as bs + 1
    else max (lcsLenF f (a :: as) bs) (lcsLenF f as (b :: bs))

def lcsLen (xs ys : List Char) : Nat :=
  lcsLenF (xs.length + ys.length) xs ys

/-- Concrete model of `rapidfuzz.fuzz.ratio`. -/
def fuzzScore (s t : String) : ℚ :=
  let n := s.length + t.length
  if n = 0 then 100 else (200 * lcsLen s.data t.data : ℚ) / (n : ℚ)

/-! ### Helper lemmas: `set_review` field preservation and stickiness -/

@[simp]
theorem set_review_oig_status (r : MatchResult) (s c e n nd : String) :
    (set_review r s c e n nd).oig_status = r.oig_status := by
  unfold set_review
  split <;> rfl

@[simp]
theorem set_review_oig_date (r : MatchResult) (s c e n nd : String) :
    (set_review r s c e n nd).oig_date = r.oig_date := by
  unfold set_review
  split <;> rfl

@[simp]
theorem set_review_sam_status (r : MatchResult) (s c e n nd : String) :
    (set_review r s c e n nd).sam_status = r.sam_status := by
  unfold set_review
  split <;> rfl

@[simp]
theorem set_review_sam_date (r : MatchResult) (s c e n nd : String) :
    (set_review r s c e n nd).sam_date = r.sam_date := by
  unfold set_review
  split <;> rfl

@[simp]
theorem set_review_reason (r : MatchResult) (s c e n nd : String) :
    (set_review r s c e n nd).reason = r.reason := by
  unfold set_review
  split <;> rfl

@[simp]
theorem set_review_review_required (r : MatchResult) (s c e n nd : String) :
    (set_review r s c e n nd).review_required = true := by
  unfold set_review
  split
  · assumption
  · rfl

theorem set_review_of_required (r : MatchResult) (h : r.review_required = true)
    (s c e n nd : String) : set_review r s c e n nd = r := by
  simp [set_review, h]

/-! ### Helper lemmas: the OIG person loop -/

theorem oigPeopleLoop_sam_status (sim : String → String → ℚ)
    (first dob_compact : String) (rows : List OigPersonRow) :
    ∀ r : MatchResult,
      (oigPeopleLoop sim first dob_compact rows r).sam_status = r.sam_status := by
  induction rows with
  | nil => intro r; rfl
  | cons row rest ih =>
    intro r
    simp only [oigPeopleLoop]
    split
    · rfl
    split
    · rfl
    split
    · rw [ih]
      split
      · simp
      split
      · simp
      · rfl
    · exact ih r

theorem oigPeopleLoop_oig_status_of_no_dob (sim : String → String → ℚ)
    (first : String) (rows : List OigPersonRow) :
    ∀ r : MatchResult,
      (oigPeopleLoop sim first "" rows r).oig_status = r.oig_status := by
  induction rows with
  | nil => intro r; rfl
  | cons row rest ih =>
    intro r
    simp only [oigPeopleLoop]
    rw [if_neg (by simp), if_neg (by simp)]
    split
    · rw [ih]
      simp
    · exact ih r

theorem oigPeopleLoop_review_of_required (sim : String → String → ℚ)
    (first dob_compact : String) (rows : List OigPersonRow) (r : MatchResult)
    (h : r.review_required = true) :
    reviewFields (oigPeopleLoop sim first dob_compact rows r) = reviewFields r := by
  induction rows with
  | nil => rfl
  | cons row rest ih =>
    simp only [oigPeopleLoop]
    split
    · rfl
    split
    · rfl
    split
    · split
      · rw [set_review_of_required r h]
        exact ih
      · split
        · rw [set_review_of_required r h]
          exact ih
        · exact ih
    · exact ih

theorem oigPeopleLoop_skip_missing_db_dob (sim : String → String → ℚ)
    (first dob_compact : String) (hd : dob_compact ≠ "")
    (row : OigPersonRow) (hrow : row.dob_compact = "")
    (rest : List OigPersonRow) (r : MatchResult) :
    oigPeopleLoop sim first dob_compact (row :: rest) r =
      oigPeopleLoop sim first dob_compact rest r := by
  simp [oigPeopleLoop, hrow, hd]

theorem oigPeopleLoop_all_missing_db_dob (sim : String → String → ℚ)
    (first dob_compact : String) (hd : dob_compact ≠ "")
    (rows : List OigPersonRow) (hrows : ∀ row ∈ rows, row.dob_compact = "")
    (r : MatchResult) :
    oigPeopleLoop sim first dob_compact rows r = r := by
  induction rows with
  | nil => rfl
  | cons row rest ih =>
    rw [oigPeopleLoop_skip_missing_db_dob sim first dob_compact hd row
      (hrows row (List.mem_cons_self row rest)) rest r]
    exact ih (fun row hm => hrows row (List.mem_cons_of_mem _ hm))

/-! ### Helper lemmas: the SAM person loop -/

theorem samPeopleLoop_preserves (first city state zip_code : String)
    (rows : List SamPersonRow) (r : MatchResult) :
    (samPeopleLoop first city state zip_code rows r).oig_status = r.oig_status ∧
    (samPeopleLoop first city state zip_code rows r).oig_date = r.oig_date ∧
    (samPeopleLoop first city state zip_code rows r).reason = r.reason ∧
    reviewFields (samPeopleLoop first city state zip_code rows r) =
      reviewFields r := by
  induction rows with
  | nil => exact ⟨rfl, rfl, rfl, rfl⟩
  | cons row rest ih =>
    simp only [samPeopleLoop]
    split
    · exact ⟨rfl, rfl, rfl, rfl⟩
    · exact ih

theorem samPeopleLoop_sam_status_of_no_zip (first city state : String)
    (rows : List SamPersonRow) (r : MatchResult) :
    (samPeopleLoop first city state "" rows r).sam_status = r.sam_status := by
  induction rows with
  | nil => rfl
  | cons row rest ih =>
    simp only [samPeopleLoop]
    rw [if_neg]
    · exact ih
    · rintro ⟨-, ⟨hz, -, -⟩, -⟩
      exact hz rfl

theorem samPeopleLoop_confirmed_iff (first city state zip_code : String)
    (rows : List SamPersonRow) (r : MatchResult) :
    (samPeopleLoop first city state zip_code rows r).sam_status = "CONFIRMED" ↔
      (r.sam_status = "CONFIRMED" ∨
        ∃ row ∈ rows, samPersonConfirm first city state zip_code row) := by
  induction rows with
  | nil => simp [samPeopleLoop]
  | cons row rest ih =>
    simp only [samPeopleLoop]
    split
    · rename_i hc
      simp only [List.mem_cons]
      constructor
      · intro _
        exact Or.inr ⟨row, Or.inl rfl, hc⟩
      · intro _
        trivial
    · rename_i hc
      rw [ih]
      simp only [List.mem_cons]
      constructor
      · rintro (h | ⟨x, hm, hx⟩)
        · exact Or.inl h
        · exact Or.inr ⟨x, Or.inr hm, hx⟩
      · rintro (h | ⟨x, hm | hm, hx⟩)
        · exact Or.inl h
        · cases hm
          exact absurd hx hc
        · exact Or.inr ⟨x, hm, hx⟩

/-! ### Helper lemmas: the entity fuzzy loops -/

theorem oigEntityLoop_preserves (sim : String → String → ℚ)
    (entity_name : String) (rows : List OigEntityRow) (r : MatchResult) :
    (oigEntityLoop sim entity_name rows r).oig_status = r.oig_status ∧
    (oigEntityLoop sim entity_name rows r).oig_date = r.oig_date ∧
    (oigEntityLoop sim entity_name rows r).sam_status = r.sam_status ∧
    (oigEntityLoop sim entity_name rows r).sam_date = r.sam_date ∧
    (oigEntityLoop sim entity_name rows r).reason = r.reason := by
  induction rows with
  | nil => exact ⟨rfl, rfl, rfl, rfl, rfl⟩
  | cons row rest ih =>
    simp only [oigEntityLoop]
    split
    · simp
    · exact ih

theorem oigEntityLoop_of_required (sim : String → String → ℚ)
    (entity_name : String) (rows : List OigEntityRow) (r : MatchResult)
    (h : r.review_required = true) :
    oigEntityLoop sim entity_name rows r = r := by
  induction rows with
  | nil => rfl
  | cons row rest ih =>
    simp only [oigEntityLoop]
    split
    · exact set_review_of_required r h _ _ _ _ _
    · exact ih

theorem oigEntityLoop_all_below (sim : String → String → ℚ)
    (entity_name : String) (rows : List OigEntityRow)
    (hrows : ∀ row ∈ rows, sim entity_name row.name < 95) (r : MatchResult) :
    oigEntityLoop sim entity_name rows r = r := by
  induction rows with
  | nil => rfl
  | cons row rest ih =>
    simp only [oigEntityLoop]
    rw [if_neg]
    · exact ih (fun x hm => hrows x (List.mem_cons_of_mem _ hm))
    · exact not_le_of_lt (hrows row (List.mem_cons_self row rest))

theorem oigEntityLoop_review_of_exists (sim : String → String → ℚ)
    (entity_name : String) (rows : List OigEntityRow) (r : MatchResult)
    (h : ∃ row ∈ rows, sim entity_name row.name ≥ 95) :
    (oigEntityLoop sim entity_name rows r).review_required = true := by
  induction rows with
  | nil =>
    obtain ⟨row, hm, -⟩ := h
    exact absurd hm (List.not_mem_nil row)
  | cons row rest ih =>
    simp only [oigEntityLoop]
    split
    · simp
    · rename_i hlt
      obtain ⟨x, hm, hx⟩ := h
      rcases List.mem_cons.mp hm with rfl | hm
      · exact absurd hx hlt
      · exact ih ⟨x, hm, hx⟩

theorem samEntityLoop_preserves (sim : String → String → ℚ)
    (entity_name state zip_code : String) (rows : List SamEntityRow)
    (r : MatchResult) :
    (samEntityLoop sim entity_name state zip_code rows r).oig_status = r.oig_status ∧
    (samEntityLoop sim entity_name state zip_code rows r).oig_date = r.oig_date ∧
    (samEntityLoop sim entity_name state zip_code rows r).sam_status = r.sam_status ∧
    (samEntityLoop sim entity_name state zip_code rows r).sam_date = r.sam_date ∧
    (samEntityLoop sim entity_name state zip_code rows r).reason = r.reason := by
  induction rows with
  | nil => exact ⟨rfl, rfl, rfl, rfl, rfl⟩
  | cons row rest ih =>
    simp only [samEntityLoop]
    split
    · split
      · simp
      split
      · simp
      · exact ih
    · exact ih

theorem samEntityLoop_of_required (sim : String → String → ℚ)
    (entity_name state zip_code : String) (rows : List SamEntityRow)
    (r : MatchResult) (h : r.review_required = true) :
    samEntityLoop sim entity_name state zip_code rows r = r := by
  induction rows with
  | nil => rfl
  | cons row rest ih =>
    simp only [samEntityLoop]
    split
    · split
      · exact set_review_of_required r h _ _ _ _ _
      split
      · exact set_review_of_required r h _ _ _ _ _
      · exact ih
    · exact ih

theorem samEntityLoop_all_below (sim : String → String → ℚ)
    (entity_name state zip_code : String) (rows : List SamEntityRow)
    (hrows : ∀ row ∈ rows, sim entity_name row.name < 95) (r : MatchResult) :
    samEntityLoop sim entity_name state zip_code rows r = r := by
  induction rows with
  | nil => rfl
  | cons row rest ih =>
    simp only [samEntityLoop]
    rw [if_neg]
    · exact ih (fun x hm => hrows x (List.mem_cons_of_mem _ hm))
    · exact not_le_of_lt (hrows row (List.mem_cons_self row rest))

theorem samEntityLoop_characterization (sim : String → String → ℚ)
    (entity_name state zip_code : String) (rows : List SamEntityRow)
    (r : MatchResult) :
    samEntityLoop sim entity_name state zip_code rows r = r ∨
      ∃ row ∈ rows, sim entity_name row.name ≥ 95 ∧
        ((state ≠ "" ∧ row.state ≠ "" ∧ upperStr state = row.state) ∨
          (zip_code ≠ "" ∧ row.zip ≠ "" ∧ zip_code = row.zip)) := by
  induction rows with
  | nil => exact Or.inl rfl
  | cons row rest ih =>
    simp only [samEntityLoop]
    split
    · rename_i hs
      split
      · rename_i hst
        exact Or.inr ⟨row, List.mem_cons_self row rest, hs, Or.inl hst⟩
      split
      · rename_i hz
        exact Or.inr ⟨row, List.mem_cons_self row rest, hs, Or.inr hz⟩
      · rcases ih with h | ⟨x, hm, hx⟩
        · exact Or.inl h
        · exact Or.inr ⟨x, List.mem_cons_of_mem _ hm, hx⟩
    · rcases ih with h | ⟨x, hm, hx⟩
      · exact Or.inl h
      · exact Or.inr ⟨x, List.mem_cons_of_mem _ hm, hx⟩

/-! ### Helper lemmas: whole-matcher facts -/

theorem match_person_oig_not_found_of_no_dob (sim : String → String → ℚ)
    (snap : Snapshot) (first last city state zip_code : String) :
    (match_person sim snap first last "" city state zip_code).oig_status =
      "NOT FOUND" := by
  unfold match_person
  rw [(samPeopleLoop_preserves _ _ _ _ _ _).1,
    oigPeopleLoop_oig_status_of_no_dob]
  rfl

theorem match_person_sam_not_found_of_no_zip (sim : String → String → ℚ)
    (snap : Snapshot) (first last dob_compact city state : String) :
    (match_person sim snap first last dob_compact city state "").sam_status =
      "NOT FOUND" := by
  unfold match_person
  rw [samPeopleLoop_sam_status_of_no_zip, oigPeopleLoop_sam_status]
  rfl

theorem match_entity_oig_confirmed_iff (sim : String → String → ℚ)
    (snap : Snapshot) (entity_name state zip_code : String) :
    (match_entity sim snap entity_name state zip_code).oig_status = "CONFIRMED" ↔
      ∃ row ∈ snap.oig_entities, row.name = entity_name := by
  simp only [match_entity]
  cases hoig : snap.oig_entities.find? (fun row => row.name = entity_name) with
  | some row =>
    have hmem := List.mem_of_find?_eq_some hoig
    have hname : row.name = entity_name := by
      simpa using List.find?_some hoig
    cases hsam : snap.sam_entities.find? (fun row => row.name = entity_name) with
    | some row2 =>
      simp only []
      exact iff_of_true (by trivial) ⟨row, hmem, hname⟩
    | none =>
      simp only []
      rw [(samEntityLoop_preserves _ _ _ _ _ _).1]
      exact iff_of_true (by trivial) ⟨row, hmem, hname⟩
  | none =>
    have hnone : ∀ x ∈ snap.oig_entities, x.name ≠ entity_name := by
      intro x hm
      simpa using List.find?_eq_none.mp hoig x hm
    have hstat :
        ∀ r2 : MatchResult, r2.oig_status =
            (oigEntityLoop sim entity_name snap.oig_entities initResult).oig_status →
          (r2.oig_status = "CONFIRMED" ↔
            ∃ row ∈ snap.oig_entities, row.name = entity_name) := by
      intro r2 h2
      rw [h2, (oigEntityLoop_preserves _ _ _ _).1]
      constructor
      · intro hc
        exact absurd hc (by decide)
      · rintro ⟨row, hm, hx⟩
        exact absurd hx (hnone row hm)
    cases hsam : snap.sam_entities.find? (fun row => row.name = entity_name) with
    | some row2 =>
      simp only []
      exact hstat _ rfl
    | none =>
      simp only []
      exact hstat _ ((samEntityLoop_preserves _ _ _ _ _ _).1)

theorem match_entity_sam_confirmed_iff (sim : String → String → ℚ)
    (snap : Snapshot) (entity_name state zip_code : String) :
    (match_entity sim snap entity_name state zip_code).sam_status = "CONFIRMED" ↔
      ∃ row ∈ snap.sam_entities, row.name = entity_name := by
  simp only [match_entity]
  cases hsam : snap.sam_entities.find? (fun row => row.name = entity_name) with
  | some row =>
    have hmem := List.mem_of_find?_eq_some hsam
    have hname : row.name = entity_name := by
      simpa using List.find?_some hsam
    simp only []
    exact iff_of_true (by trivial) ⟨row, hmem, hname⟩
  | none =>
    have hnone : ∀ x ∈ snap.sam_entities, x.name ≠ entity_name := by
      intro x hm
      simpa using List.find?_eq_none.mp hsam x hm
    simp only []
    rw [(samEntityLoop_preserves _ _ _ _ _ _).2.2.1]
    have hbase :
        ∀ r1 : MatchResult, r1.sam_status = initResult.sam_status →
          (r1.sam_status = "CONFIRMED" ↔
            ∃ row ∈ snap.sam_entities, row.name = entity_name) := by
      intro r1 h1
      rw [h1]
      constructor
      · intro hc
        exact absurd hc (by decide)
      · rintro ⟨row, hm, hx⟩
        exact absurd hx (hnone row hm)
    cases hoig : snap.oig_entities.find? (fun row => row.name = entity_name) with
    | some row2 =>
      simp only []
      exact hbase _ rfl
    | none =>
      simp only []
      exact hbase _ ((oigEntityLoop_preserves _ _ _ _).2.2.1)

theorem match_entity_oig_review_of_exists (sim : String → String → ℚ)
    (snap : Snapshot) (entity_name state zip_code : String)
    (hne : ∀ row ∈ snap.oig_entities, row.name ≠ entity_name)
    (hex : ∃ row ∈ snap.oig_entities, sim entity_name row.name ≥ 95) :
    (match_entity sim snap entity_name state zip_code).review_required = true := by
  have hfind : snap.oig_entities.find? (fun row => row.name = entity_name) = none :=
    List.find?_eq_none.mpr (fun x hm => by simpa using hne x hm)
  simp only [match_entity]
  rw [hfind]
  have hr1 : (oigEntityLoop sim entity_name snap.oig_entities
      initResult).review_required = true :=
    oigEntityLoop_review_of_exists sim entity_name _ initResult hex
  cases hsam : snap.sam_entities.find? (fun row => row.name = entity_name) with
  | some row2 =>
    simp only []
    exact hr1
  | none =>
    simp only []
    rw [samEntityLoop_of_required _ _ _ _ _ _ hr1]
    exact hr1

/-! ### Helper lemmas: date parsing validity -/

theorem mkValidDate_self (y m dd : Nat) (d : Date)
    (h : mkValidDate y m dd = some d) :
    mkValidDate d.year d.month d.day = some d := by
  unfold mkValidDate at h ⊢
  split at h
  · rename_i hg
    cases h
    simp [hg]
  · cases h

theorem strptime_mdy_valid (s : String) (d : Date)
    (h : strptime_mdy s = some d) :
    mkValidDate d.year d.month d.day = some d := by
  unfold strptime_mdy at h
  split at h
  · split at h
    · exact mkValidDate_self _ _ _ _ h
    · cases h
  · cases h

theorem strptime_ymd_valid (s : String) (d : Date)
    (h : strptime_ymd s = some d) :
    mkValidDate d.year d.month d.day = some d := by
  unfold strptime_ymd at h
  split at h
  · split at h
    · exact mkValidDate_self _ _ _ _ h
    · cases h
  · cases h

theorem parse_dob_valid (s : String) (d : Date) (h : parse_dob s = some d) :
    mkValidDate d.year d.month d.day = some d := by
  unfold parse_dob at h
  split at h
  · rename_i d' heq
    cases h
    exact strptime_mdy_valid _ _ heq
  · exact strptime_ymd_valid _ _ h

/-! ### Claim theorems -/

/-- C9: `normalize_dob` is total; every input either yields `(none, none)`
(when empty or parseable by neither accepted format) or parses to a valid
calendar date and returns exactly that date's iso and compact renderings. -/
theorem normalize_dob_total_spec : ∀ s : String,
    (normalize_dob s = (none, none) ∧ (s = "" ∨ parse_dob (trimStr s) = none)) ∨
    (∃ d : Date, parse_dob (trimStr s) = some d ∧
      mkValidDate d.year d.month d.day = some d ∧
      normalize_dob s = (some (fmt_iso d), some (fmt_compact d))) := by
  intro s
  by_cases hs : s = ""
  · left
    exact ⟨by simp [normalize_dob, hs], Or.inl hs⟩
  · cases hp : parse_dob (trimStr s) with
    | none =>
      left
      exact ⟨by simp [normalize_dob, hs, hp], Or.inr rfl⟩
    | some d =>
      right
      exact ⟨d, rfl, parse_dob_valid _ _ hp, by simp [normalize_dob, hs, hp]⟩

/-- C8 counterexample: on an input with fewer than five digits,
`normalize_zip` returns the remaining digits, not the empty string the claim
requires. -/
theorem normalize_zip_short_cex :
    normalize_zip "1234" = "1234" ∧ normalize_zip "1234" ≠ "" := by
  exact ⟨rfl, by decide⟩

/-- C8 (amended): `normalize_zip` strips non-digit characters and returns the
first five remaining digits; when fewer than five digits remain it returns
all of them (the empty string only when no digit remains). -/
theorem normalize_zip_amended : ∀ z : String,
    (normalize_zip z).data = (z.data.filter Char.isDigit).take 5 ∧
    ((z.data.filter Char.isDigit).length ≤ 5 →
      (normalize_zip z).data = z.data.filter Char.isDigit) := by
  intro z
  have h1 : (normalize_zip z).data = (z.data.filter Char.isDigit).take 5 := by
    by_cases hz : z = ""
    · subst hz
      rfl
    · simp [normalize_zip, hz]
  refine ⟨h1, fun hlen => ?_⟩
  rw [h1]
  exact List.take_of_length_le hlen

/-- C8 witness: the amended short-input branch evaluated at a concrete zip. -/
theorem normalize_zip_amended_witness :
    ("12-3".data.filter Char.isDigit).length ≤ 5 ∧
    (normalize_zip "12-3").data = "12-3".data.filter Char.isDigit :=
  ⟨by decide, (normalize_zip_amended "12-3").2 (by decide)⟩

/-- C7: dispatch policy of the vendor loop: ENTITY runs only the entity
match, PERSON_VENDOR only the person match, and AMBIGUOUS runs both and
keeps the person result exactly when it confirms on either registry. -/
theorem vendor_dispatch_policy :
    ∀ (sim : String → String → ℚ) (snap : Snapshot)
      (name_raw state zip_code : String),
      dispatch_match sim snap "ENTITY" name_raw state zip_code =
        match_entity sim snap (normalize_entity_name name_raw) state zip_code ∧
      dispatch_match sim snap "PERSON_VENDOR" name_raw state zip_code =
        match_person sim snap
          (normalize_person_name ((splitTokens name_raw).headD "")
            (if (splitTokens name_raw).length > 1 then
              (splitTokens name_raw).getLastD "" else "") "").1
          (normalize_person_name ((splitTokens name_raw).headD "")
            (if (splitTokens name_raw).length > 1 then
              (splitTokens name_raw).getLastD "" else "") "").2.1
          "" "" "" zip_code ∧
      dispatch_match sim snap "AMBIGUOUS" name_raw state zip_code =
        (if (dispatch_match sim snap "PERSON_VENDOR" name_raw state
              zip_code).oig_status = "CONFIRMED" ∨
            (dispatch_match sim snap "PERSON_VENDOR" name_raw state
              zip_code).sam_status = "CONFIRMED"
          then dispatch_match sim snap "PERSON_VENDOR" name_raw state zip_code
          else dispatch_match sim snap "ENTITY" name_raw state zip_code) := by
  intro sim snap n s z
  exact ⟨rfl, rfl, rfl⟩

/-- C6: a review item is sticky: once `review_required` is set, the shared
attach helper is the identity, and every scanning loop of both matchers
leaves all review fields unchanged. -/
theorem review_sticky :
    ∀ r : MatchResult, r.review_required = true →
      (∀ source candidate_name exclusion_date note needed_data : String,
        set_review r source candidate_name exclusion_date note needed_data = r) ∧
      (∀ (sim : String → String → ℚ) (first dob_compact : String)
          (rows : List OigPersonRow),
        reviewFields (oigPeopleLoop sim first dob_compact rows r) =
          reviewFields r) ∧
      (∀ (first city state zip_code : String) (rows : List SamPersonRow),
        reviewFields (samPeopleLoop first city state zip_code rows r) =
          reviewFields r) ∧
      (∀ (sim : String → String → ℚ) (entity_name : String)
          (rows : List OigEntityRow),
        oigEntityLoop sim entity_name rows r = r) ∧
      (∀ (sim : String → String → ℚ) (entity_name state zip_code : String)
          (rows : List SamEntityRow),
        samEntityLoop sim entity_name state zip_code rows r = r) := by
  intro r h
  exact ⟨fun a b c d e => set_review_of_required r h a b c d e,
    fun sim f dc rows => oigPeopleLoop_review_of_required sim f dc rows r h,
    fun f c s z rows => (samPeopleLoop_preserves f c s z rows r).2.2.2,
    fun sim n rows => oigEntityLoop_of_required sim n rows r h,
    fun sim n s z rows => samEntityLoop_of_required sim n s z rows r h⟩

/-- C6 witness: a second attach attempt on a result that already carries a
review item leaves it unchanged. -/
theorem review_sticky_witness :
    set_review { initResult with review_required := true }
        "SAM Entities" "X" "" "note text" "" =
      { initResult with review_required := true } :=
  (review_sticky { initResult with review_required := true } rfl).1
    "SAM Entities" "X" "" "note text" ""

/-- C5 counterexample: when the month's snapshot exists, the build fails with
a generic `Exception` (message "Cache for {month} already exists."), not with
a dedicated `SnapshotAlreadyExists` error class. -/
theorem build_cache_error_type_cex :
    (build_reference_cache
        (fun p => if p = "reference_2024-01.sqlite" then
          some (mkSnapshot [] []) else none)
        "2024-01" [] []).2 =
      Except.error ⟨"Exception", "Cache for 2024-01 already exists."⟩ ∧
    ("Exception" : String) ≠ "SnapshotAlreadyExists" :=
  ⟨rfl, by decide⟩

/-- C5 (amended): `build_reference_cache` takes no force flag; whenever the
month's snapshot exists the call returns the generic already-exists error
before performing any write, leaving the store (hence the existing snapshot)
unchanged. -/
theorem build_cache_already_exists_amended :
    ∀ (store : CacheStore) (month : String) (oig_rows : List OigCsvRow)
      (sam_rows : List SamCsvRow),
      cache_exists store month = true →
      build_reference_cache store month oig_rows sam_rows =
        (store, Except.error
          ⟨"Exception", "Cache for " ++ month ++ " already exists."⟩) := by
  intro store month og sm h
  unfold cache_exists at h
  simp [build_reference_cache, h]

/-- C5 witness: the amended build failure evaluated on a one-snapshot store. -/
theorem build_cache_already_exists_amended_witness :
    cache_exists
        (fun p => if p = "reference_2024-01.sqlite" then
          some (mkSnapshot [] []) else none) "2024-01" = true ∧
    build_reference_cache
        (fun p => if p = "reference_2024-01.sqlite" then
          some (mkSnapshot [] []) else none) "2024-01" [] [] =
      ((fun p => if p = "reference_2024-01.sqlite" then
          some (mkSnapshot [] []) else none),
        Except.error ⟨"Exception", "Cache for 2024-01 already exists."⟩) :=
  ⟨rfl, build_cache_already_exists_amended _ "2024-01" [] [] rfl⟩

/-- C10: when the query supplies a DOB, every OIG reference row whose stored
DOB is absent is skipped by every branch of the Source-A pass: processing it
is the identity, and a snapshot whose matching rows all lack a stored DOB
yields `oig_status = "NOT FOUND"` with no review item. -/
theorem oig_person_missing_db_dob_skip :
    ∀ (sim : String → String → ℚ) (snap : Snapshot)
      (first last dob_compact city state zip_code : String),
      dob_compact ≠ "" →
      (∀ row ∈ snap.oig_people, row.last = last → row.dob_compact = "") →
      ((match_person sim snap first last dob_compact city state
          zip_code).oig_status = "NOT FOUND" ∧
        (match_person sim snap first last dob_compact city state
          zip_code).review_required = false) ∧
      ∀ (row : OigPersonRow) (rest : List OigPersonRow) (r : MatchResult),
        row.dob_compact = "" →
        oigPeopleLoop sim first dob_compact (row :: rest) r =
          oigPeopleLoop sim first dob_compact rest r := by
  intro sim snap f l dc c s z hd hall
  constructor
  · have hfilter : ∀ row ∈ snap.oig_people.filter (fun row => row.last = l),
        row.dob_compact = "" := by
      intro row hm
      have hmem := List.mem_filter.mp hm
      exact hall row hmem.1 (by simpa using hmem.2)
    have hloop : oigPeopleLoop sim f dc
        (snap.oig_people.filter (fun row => row.last = l)) initResult =
        initResult :=
      oigPeopleLoop_all_missing_db_dob sim f dc hd _ hfilter initResult
    unfold match_person
    rw [hloop]
    constructor
    · rw [(samPeopleLoop_preserves _ _ _ _ _ _).1]
      rfl
    · exact congrArg Prod.fst
        (samPeopleLoop_preserves f c s z
          (snap.sam_people.filter (fun row => row.last = l)) initResult).2.2.2
  · intro row rest r hrow
    exact oigPeopleLoop_skip_missing_db_dob sim f dc hd row hrow rest r

/-- C10 witness: a query with a DOB against a single matching OIG row whose
stored DOB is empty. -/
theorem oig_person_missing_db_dob_skip_witness :
    ("19800101" : String) ≠ "" ∧
    (match_person fuzzScore
        ⟨[⟨"ROBERT", "JONES", "", "", "2020-01-01"⟩], [], [], []⟩
        "ROBERT" "JONES" "19800101" "" "" "").oig_status = "NOT FOUND" ∧
    (match_person fuzzScore
        ⟨[⟨"ROBERT", "JONES", "", "", "2020-01-01"⟩], [], [], []⟩
        "ROBERT" "JONES" "19800101" "" "" "").review_required = false :=
  ⟨by decide,
    (oig_person_missing_db_dob_skip fuzzScore
      ⟨[⟨"ROBERT", "JONES", "", "", "2020-01-01"⟩], [], [], []⟩
      "ROBERT" "JONES" "19800101" "" "" "" (by decide) (by decide)).1⟩

/-- C1 counterexample: `match_entity` confirms on exact name equality alone:
a query carrying no corroborating field at all, against a registry row that
carries none either, yields `oig_status = "CONFIRMED"`. -/
theorem confirmed_requires_corroboration_cex :
    (match_entity fuzzScore ⟨[], [], [⟨"ACME", "2020-01-01"⟩], []⟩
      "ACME" "" "").oig_status = "CONFIRMED" ∧
    (match_entity fuzzScore ⟨[], [], [⟨"ACME", "2020-01-01"⟩], []⟩
      "ACME" "" "").reason = "Exact entity name match (OIG)" ∧
    (match_entity fuzzScore ⟨[], [], [⟨"ACME", "2020-01-01"⟩], []⟩
      "ACME" "" "").review_required = false :=
  ⟨rfl, rfl, rfl⟩

/-- C1 (amended): in `match_person`, CONFIRMED always requires a
deterministic corroborating field — no query DOB means no OIG confirmation
and no query zip means no SAM confirmation — and name similarity never
confirms in `match_entity` either; but exact entity name equality alone
confirms in `match_entity`: its `*_status` is CONFIRMED exactly when the
name occurs verbatim in the corresponding table. -/
theorem confirmed_corroboration_amended :
    ∀ (sim : String → String → ℚ) (snap : Snapshot)
      (first last dob_compact city state zip_code entity_name : String),
      (match_person sim snap first last "" city state zip_code).oig_status =
        "NOT FOUND" ∧
      (match_person sim snap first last dob_compact city state "").sam_status =
        "NOT FOUND" ∧
      ((match_entity sim snap entity_name state zip_code).oig_status =
          "CONFIRMED" ↔ ∃ row ∈ snap.oig_entities, row.name = entity_name) ∧
      ((match_entity sim snap entity_name state zip_code).sam_status =
          "CONFIRMED" ↔ ∃ row ∈ snap.sam_entities, row.name = entity_name) := by
  intro sim snap f l dc c s z n
  exact ⟨match_person_oig_not_found_of_no_dob sim snap f l c s z,
    match_person_sam_not_found_of_no_zip sim snap f l dc c s,
    match_entity_oig_confirmed_iff sim snap n s z,
    match_entity_sam_confirmed_iff sim snap n s z⟩

/-- C1 witness: the amended characterization applied at a concrete snapshot:
an exact entity name hit confirms. -/
theorem confirmed_corroboration_amended_witness :
    (match_entity fuzzScore ⟨[], [], [⟨"BETA", "2020-02-02"⟩], []⟩
      "BETA" "" "").oig_status = "CONFIRMED" :=
  (confirmed_corroboration_amended fuzzScore
      ⟨[], [], [⟨"BETA", "2020-02-02"⟩], []⟩ "" "" "" "" "" "" "BETA").2.2.1.mpr
    ⟨⟨"BETA", "2020-02-02"⟩, List.mem_cons_self _ _, rfl⟩

/-- C2 counterexample: the CONFIRMED reason the code records for the
exact-plus-DOB rule is "Exact first+last+DOB", not the "exact+DOB" string the
claim states. -/
theorem oig_person_reason_string_cex :
    (match_person fuzzScore
      ⟨[⟨"ROBERT", "JONES", "1980-01-01", "19800101", "2020-05-01"⟩],
        [], [], []⟩
      "ROBERT" "JONES" "19800101" "" "" "").oig_status = "CONFIRMED" ∧
    (match_person fuzzScore
      ⟨[⟨"ROBERT", "JONES", "1980-01-01", "19800101", "2020-05-01"⟩],
        [], [], []⟩
      "ROBERT" "JONES" "19800101" "" "" "").reason = "Exact first+last+DOB" ∧
    (match_person fuzzScore
      ⟨[⟨"ROBERT", "JONES", "1980-01-01", "19800101", "2020-05-01"⟩],
        [], [], []⟩
      "ROBERT" "JONES" "19800101" "" "" "").reason ≠ "exact+DOB" :=
  ⟨rfl, rfl, by decide⟩

/-- C2 (amended): the Source-A pass behaves per rule exactly as claimed, with
the code's literal reason and note strings: exact first plus matching DOBs
confirms with reason "Exact first+last+DOB" and stops; similarity at or above
95 plus matching DOBs confirms with reason "Fuzzy first (score) + DOB" and
stops; similarity at or above 90 attaches a review item — noting a missing
DOB when the query has none, or a DOB mismatch when both are present and
differ — and scanning continues with the later rows. -/
theorem oig_person_pass_amended :
    ∀ (sim : String → String → ℚ) (first dob_compact : String)
      (row : OigPersonRow) (rest : List OigPersonRow) (r : MatchResult),
      (first = row.first → dob_compact ≠ "" → dob_compact = row.dob_compact →
        oigPeopleLoop sim first dob_compact (row :: rest) r =
          { r with oig_status := "CONFIRMED",
                   oig_date := row.exclusion_date,
                   reason := "Exact first+last+DOB" }) ∧
      (first ≠ row.first → sim first row.first ≥ 95 → dob_compact ≠ "" →
        dob_compact = row.dob_compact →
        oigPeopleLoop sim first dob_compact (row :: rest) r =
          { r with oig_status := "CONFIRMED",
                   oig_date := row.exclusion_date,
                   reason := "Fuzzy first (" ++ toString (sim first row.first) ++
                     ") + DOB" }) ∧
      (dob_compact = "" → sim first row.first ≥ 90 →
        oigPeopleLoop sim first dob_compact (row :: rest) r =
          oigPeopleLoop sim first dob_compact rest
            (set_review r "OIG People" (trimStr (row.first ++ " " ++ row.last))
              row.exclusion_date
              ("High-similarity OIG name match (score=" ++
                toString (sim first row.first) ++
                ") but DOB missing in source record.")
              "DOB")) ∧
      (dob_compact ≠ "" → row.dob_compact ≠ "" → dob_compact ≠ row.dob_compact →
        sim first row.first ≥ 90 →
        oigPeopleLoop sim first dob_compact (row :: rest) r =
          oigPeopleLoop sim first dob_compact rest
            (set_review r "OIG People" (trimStr (row.first ++ " " ++ row.last))
              row.exclusion_date
              ("High-similarity OIG name match (score=" ++
                toString (sim first row.first) ++
                ") but DOB does not match reference.")
              "Confirm DOB / SSN last4")) := by
  intro sim first dc row rest r
  refine ⟨fun h1 h2 h3 => ?_, fun h1 h2 h3 h4 => ?_,
    fun h1 h2 => ?_, fun h1 h2 h3 h4 => ?_⟩
  · simp only [oigPeopleLoop]
    rw [if_pos ⟨h1, h2, h3⟩]
  · simp only [oigPeopleLoop]
    rw [if_neg (fun hc => h1 hc.1), if_pos ⟨h2, h3, h4⟩]
  · subst h1
    simp only [oigPeopleLoop]
    rw [if_neg (by simp), if_neg (by simp), if_pos h2]
    simp
  · simp only [oigPeopleLoop]
    rw [if_neg (fun hc => h3 hc.2.2), if_neg (fun hc => h3 hc.2.2),
      if_pos h4, if_neg h1, if_pos ⟨h2, h3⟩]

/-- C2 witness: the exact-plus-DOB rule evaluated on one concrete row. -/
theorem oig_person_pass_amended_witness :
    oigPeopleLoop fuzzScore "ROBERT" "19800101"
        [⟨"ROBERT", "JONES", "1980-01-01", "19800101", "2020-05-01"⟩]
        initResult =
      { initResult with oig_status := "CONFIRMED",
                        oig_date := "2020-05-01",
                        reason := "Exact first+last+DOB" } :=
  (oig_person_pass_amended fuzzScore "ROBERT" "19800101"
      ⟨"ROBERT", "JONES", "1980-01-01", "19800101", "2020-05-01"⟩ []
      initResult).1 rfl (by decide) rfl

/-- C3: the Source-B person pass confirms exactly on rows with equal last
name, exactly equal first name, a zip match, and either no query city/state
or agreement of both; and the pass never touches the review fields. -/
theorem sam_person_strict_policy :
    ∀ (sim : String → String → ℚ) (snap : Snapshot)
      (first last dob_compact city state zip_code : String),
      ((match_person sim snap first last dob_compact city state
          zip_code).sam_status = "CONFIRMED" ↔
        ∃ row ∈ snap.sam_people, row.last = last ∧
          samPersonConfirm first city state zip_code row) ∧
      reviewFields (match_person sim snap first last dob_compact city state
          zip_code) =
        reviewFields (oigPeopleLoop sim first dob_compact
          (snap.oig_people.filter (fun row => row.last = last)) initResult) := by
  intro sim snap f l dc c s z
  constructor
  · unfold match_person
    rw [samPeopleLoop_confirmed_iff, oigPeopleLoop_sam_status]
    constructor
    · rintro (h | ⟨row, hm, hx⟩)
      · exact absurd h (by decide)
      · have hmf := List.mem_filter.mp hm
        exact ⟨row, hmf.1, by simpa using hmf.2, hx⟩
    · rintro ⟨row, hm, hlast, hx⟩
      exact Or.inr ⟨row, List.mem_filter.mpr ⟨hm, by simpa using hlast⟩, hx⟩
  · unfold match_person
    exact (samPeopleLoop_preserves _ _ _ _ _ _).2.2.2

/-- C3 witness: a fully corroborated Source-B row (first, last and zip match,
no query city/state) confirms. -/
theorem sam_person_strict_policy_witness :
    (match_person fuzzScore
      ⟨[], [⟨"JANE", "DOE", "2019-01-01", "", "", "90210"⟩], [], []⟩
      "JANE" "DOE" "" "" "" "90210").sam_status = "CONFIRMED" :=
  (sam_person_strict_policy fuzzScore
      ⟨[], [⟨"JANE", "DOE", "2019-01-01", "", "", "90210"⟩], [], []⟩
      "JANE" "DOE" "" "" "" "90210").1.mpr
    ⟨⟨"JANE", "DOE", "2019-01-01", "", "", "90210"⟩,
      List.mem_cons_self _ _, rfl, by decide⟩

/-- C4 counterexample: a Source-A entity candidate at similarity 2000/21 ≥ 95
with no corroborating field anywhere (no query state or zip, and the OIG
entity table carries no location columns) triggers a review item, refuting
"pure name similarity never triggers an entity review". -/
theorem entity_review_pure_similarity_cex :
    (match_entity fuzzScore ⟨[], [], [⟨"ABCDEFGHIJK", "2021-01-01"⟩], []⟩
      "ABCDEFGHIJ" "" "").review_required = true := by
  have hlcs : lcsLen "ABCDEFGHIJ".data "ABCDEFGHIJK".data = 10 := by decide
  have hn : "ABCDEFGHIJ".length + "ABCDEFGHIJK".length = 21 := by decide
  have hs : fuzzScore "ABCDEFGHIJ" "ABCDEFGHIJK" ≥ 95 := by
    simp [fuzzScore, hlcs, hn]
    norm_num
  exact match_entity_oig_review_of_exists fuzzScore _ "ABCDEFGHIJ" "" ""
    (by decide)
    ⟨⟨"ABCDEFGHIJK", "2021-01-01"⟩, List.mem_cons_self _ _, hs⟩

/-- C4 (amended): entity candidates below similarity 95 never produce
CONFIRMED or review for any corroboration values; a Source-B candidate at or
above 95 produces a review item only when the state or the zip matches; but
a Source-A candidate at or above 95 (with no exact hit) produces a review on
name similarity alone, with no corroborating field required. -/
theorem entity_fuzzy_policy_amended :
    (∀ (sim : String → String → ℚ) (snap : Snapshot)
        (entity_name state zip_code : String),
      (∀ row ∈ snap.oig_entities, row.name ≠ entity_name ∧
        sim entity_name row.name < 95) →
      (∀ row ∈ snap.sam_entities, row.name ≠ entity_name ∧
        sim entity_name row.name < 95) →
      match_entity sim snap entity_name state zip_code = initResult) ∧
    (∀ (sim : String → String → ℚ) (entity_name state zip_code : String)
        (rows : List SamEntityRow) (r : MatchResult),
      samEntityLoop sim entity_name state zip_code rows r = r ∨
        ∃ row ∈ rows, sim entity_name row.name ≥ 95 ∧
          ((state ≠ "" ∧ row.state ≠ "" ∧ upperStr state = row.state) ∨
            (zip_code ≠ "" ∧ row.zip ≠ "" ∧ zip_code = row.zip))) ∧
    (∀ (sim : String → String → ℚ) (snap : Snapshot)
        (entity_name state zip_code : String),
      (∀ row ∈ snap.oig_entities, row.name ≠ entity_name) →
      (∃ row ∈ snap.oig_entities, sim entity_name row.name ≥ 95) →
      (match_entity sim snap entity_name state zip_code).review_required =
        true) := by
  refine ⟨fun sim snap n s z hoig hsam => ?_,
    fun sim n s z rows r => samEntityLoop_characterization sim n s z rows r,
    fun sim snap n s z hne hex =>
      match_entity_oig_review_of_exists sim snap n s z hne hex⟩
  have hfo : snap.oig_entities.find? (fun row => row.name = n) = none :=
    List.find?_eq_none.mpr (fun x hm => by simpa using (hoig x hm).1)
  have hfs : snap.sam_entities.find? (fun row => row.name = n) = none :=
    List.find?_eq_none.mpr (fun x hm => by simpa using (hsam x hm).1)
  simp only [match_entity]
  rw [hfo, hfs]
  show samEntityLoop sim n s z snap.sam_entities
    (oigEntityLoop sim n snap.oig_entities initResult) = initResult
  rw [oigEntityLoop_all_below sim n _ (fun x hm => (hoig x hm).2) initResult,
    samEntityLoop_all_below sim n s z _ (fun x hm => (hsam x hm).2) initResult]

/-- C4 witness: the hard-floor branch of the amended claim at a concrete
snapshot whose only candidate scores below the threshold. -/
theorem entity_fuzzy_policy_amended_witness :
    match_entity (fun a b => if a = b then (100 : ℚ) else 0)
      ⟨[], [], [⟨"ZETA CORP", "2020-01-01"⟩], []⟩ "ACME" "" "" = initResult :=
  entity_fuzzy_policy_amended.1 (fun a b => if a = b then (100 : ℚ) else 0)
    ⟨[], [], [⟨"ZETA CORP", "2020-01-01"⟩], []⟩ "ACME" "" ""
    (by decide) (by decide)

end ExclusionApp


